import Mathlib

/-!
Tesseract renderer: geometry tables, projection matrix and GL object lifetimes.

A shallow embedding of `src/main.cpp` (and the resource-handling part of
`src/shader.cpp`):

* `projection_matrix` is embedded over an arbitrary field `K`, with the
  tangent function passed in, so that it runs on rationals and can be
  instantiated at the reals with `Real.tan`;
* the `vertices` and `indices` tables of `setupVertexObjects` are embedded
  verbatim (`0.5`, `-0.5`, `0`, `1` are exact in any binary float format, so the
  rational literals denote exactly the stored floats);
* `main` is embedded as a state transformer over the set of live GL object
  names.
-/

namespace Tesseract

/-! ## Vectors and column-major matrices (the `glm` value types) -/

/-- A `glm::vec4`: components `v 0 .. v 3` are `x, y, z, w`. -/
abbrev Vec4 (K : Type) := Fin 4 → K

/-- A `glm::mat4`, indexed as in the source: `m c r` is `mat[c][r]`, column first. -/
abbrev Mat4 (K : Type) := Fin 4 → Fin 4 → K

/-- The constructor `glm::mat4(s)`: `s` on the diagonal, zero elsewhere. -/
def mat4Scalar {K : Type} [Zero K] (s : K) : Mat4 K :=
  fun c r => if c = r then s else 0

/-- The assignment `mat[c][r] = v`. -/
def setEntry {K : Type} (m : Mat4 K) (c r : Fin 4) (v : K) : Mat4 K :=
  fun c1 r1 => if c1 = c ∧ r1 = r then v else m c1 r1

/-- The product `mat * vec` of a column-major matrix with a column vector:
the linear combination of the columns of `m` weighted by the components of `v`. -/
def mulVec {K : Type} [Add K] [Mul K] (m : Mat4 K) (v : Vec4 K) : Vec4 K :=
  fun r => m 0 r * v 0 + m 1 r * v 1 + m 2 r * v 2 + m 3 r * v 3

/-- The product `a * b` of two column-major matrices: column `c` of the result is
`a` applied to column `c` of `b`. -/
def mulMat {K : Type} [Add K] [Mul K] (a b : Mat4 K) : Mat4 K :=
  fun c => mulVec a (b c)

/-! ## `projection_matrix` (main.cpp, lines 87-117) -/

/-- The function `projection_matrix`. The first component of the result is the returned
matrix, the second is the value stored through the reference parameter `constFactor`. -/
def projection_matrix {K : Type} [Field K] (tan : K → K)
    (fovy xy_aspect zNear zFar : K) : Mat4 K × K :=
  let tanHalfFovy := tan (fovy / 2)
  let mat : Mat4 K := mat4Scalar 0
  let mat := setEntry mat 0 0 (1 / (xy_aspect * tanHalfFovy))
  let mat := setEntry mat 1 1 (1 / tanHalfFovy)
  let mat := setEntry mat 2 3 (-1)
  let mat := setEntry mat 2 2 (-(zFar + zNear) / (zFar - zNear))
  let constFactor := -(2 * zFar * zNear) / (zFar - zNear)
  let mat := setEntry mat 3 0 1
  let mat := setEntry mat 3 1 1
  let mat := setEntry mat 3 2 1
  let mat := setEntry mat 3 3 1
  (mat, constFactor)

/-- Modelled from the spec: the vertex stage (the shader text `shaders/vertex.txt` is
not among the sources). Section 4.3: `clip = projectionMatrix × modelMatrix × position`,
then `clip.z += wOffset`. -/
def fullTransform {K : Type} [Add K] [Mul K] (projection model : Mat4 K) (zConstOffset : K)
    (position : Vec4 K) : Vec4 K :=
  let clip := mulVec (mulMat projection model) position
  fun r => if r = 2 then clip r + zConstOffset else clip r

/-- The model matrix of `renderLoop`: `glm::mat4 model = glm::mat4(1.0f)`. -/
def modelMatrix {K : Type} [Zero K] [One K] : Mat4 K := mat4Scalar 1

/-- The full transform with the matrix and constant produced by `projection_matrix` and
the identity model matrix of `renderLoop`. -/
def programTransform {K : Type} [Field K] (tan : K → K)
    (fovy xy_aspect zNear zFar : K) (position : Vec4 K) : Vec4 K :=
  let p := projection_matrix tan fovy xy_aspect zNear zFar
  fullTransform p.1 modelMatrix p.2 position

/-- The standard 3D perspective matrix, written from its textbook description:
`M[0][0] = 1/(aspect*t)`, `M[1][1] = 1/t`, `M[2][2] = -(far+near)/(far-near)`,
`M[2][3] = -1`, `M[3][2] = -(2*far*near)/(far-near)`, every other entry zero. -/
def standardPerspective {K : Type} [Field K] (tan : K → K)
    (fovy aspect near far : K) : Mat4 K :=
  let t := tan (fovy / 2)
  ![![1 / (aspect * t), 0, 0, 0],
    ![0, 1 / t, 0, 0],
    ![0, 0, -(far + near) / (far - near), -1],
    ![0, 0, -(2 * far * near) / (far - near), 0]]

/-- The stated preconditions on the frustum parameters. -/
def ValidFrustum (fovy xy_aspect zNear zFar : ℝ) : Prop :=
  0 < zNear ∧ zNear < zFar ∧ 0 < fovy ∧ fovy < Real.pi ∧ 0 < xy_aspect

/-! ## The tables of `setupVertexObjects` (main.cpp, lines 124-178) -/

/-- The array `vertices`: 7 floats per record, position `xyzw` then colour `RGB`. -/
def vertices : List ℚ := [
  -0.5, -0.5, -0.5, -0.5,     0.0, 1.0, 0.0,
  -0.5, -0.5, -0.5,  0.5,     0.0, 1.0, 0.0,
  -0.5, -0.5,  0.5, -0.5,     1.0, 0.0, 0.0,
  -0.5, -0.5,  0.5,  0.5,     1.0, 0.0, 0.0,
  -0.5,  0.5, -0.5, -0.5,     0.0, 1.0, 0.0,
  -0.5,  0.5, -0.5,  0.5,     0.0, 1.0, 0.0,
  -0.5,  0.5,  0.5, -0.5,     1.0, 0.0, 0.0,
  -0.5,  0.5,  0.5,  0.5,     1.0, 0.0, 0.0,

   0.5, -0.5, -0.5, -0.5,     0.0, 1.0, 0.0,
   0.5, -0.5, -0.5,  0.5,     0.0, 1.0, 0.0,
   0.5, -0.5,  0.5, -0.5,     1.0, 0.0, 0.0,
   0.5, -0.5,  0.5,  0.5,     1.0, 0.0, 0.0,
   0.5,  0.5, -0.5, -0.5,     0.0, 1.0, 0.0,
   0.5,  0.5, -0.5,  0.5,     0.0, 1.0, 0.0,
   0.5,  0.5,  0.5, -0.5,     1.0, 0.0, 0.0,
   0.5,  0.5,  0.5,  0.5,     1.0, 0.0, 0.0]

/-- The array `indices`. -/
def indices : List ℕ := [
  0,  1,
  0,  2,
  0,  4,
  0,  8,
  1,  3,
  1,  5,
  1,  9,
  2,  3,
  2,  6,
  2,  10,
  3,  7,
  3,  11,
  4,  5,
  4,  6,
  4,  12,
  5,  7,
  5,  13,
  6,  7,
  6,  14,
  7,  15,
  8,  9,
  8,  10,
  8,  12,
  9,  11,
  9,  13,
  10, 11,
  10, 14,
  11, 15,
  12, 13,
  12, 14,
  13, 15,
  14, 15]

/-- The record length `stride = 7 * sizeof(float)`, counted in floats. -/
def stride : ℕ := 7

/-- The number of vertex records in `vertices`. -/
def vertexCount : ℕ := vertices.length / stride

/-- A vertex attribute as laid out by `glVertexAttribPointer`: `size` floats starting
`offset` floats into record `i`. -/
def attrib (offset size i : ℕ) : List ℚ :=
  (vertices.drop (stride * i + offset)).take size

/-- Attribute 0: the position `xyzw` of record `i` (4 floats at offset 0). -/
def position (i : ℕ) : List ℚ := attrib 0 4 i

/-- Attribute 1: the colour `RGB` of record `i` (3 floats at offset 4). -/
def color (i : ℕ) : List ℚ := attrib 4 3 i

/-- The index count passed to `glDrawElements(GL_LINES, 64, GL_UNSIGNED_INT, 0)`. -/
def drawCount : ℕ := 64

/-- Line `k` of the `GL_LINES` draw: the `k`-th pair of consecutive indices. -/
def edge (k : ℕ) : ℕ × ℕ := (indices.getD (2 * k) 0, indices.getD (2 * k + 1) 0)

/-- The index table read as consecutive pairs. -/
def edges : List (ℕ × ℕ) := (List.range (drawCount / 2)).map edge

/-- Whether the pair `e` joins `i` and `j`, in either order. -/
def joins (e : ℕ × ℕ) (i j : ℕ) : Bool :=
  (e.1 == i && e.2 == j) || (e.1 == j && e.2 == i)

/-- How often the unordered pair of `i` and `j` occurs among the edges. -/
def occurrences (i j : ℕ) : ℕ := edges.countP (fun e => joins e i j)

/-- The number of the four low bits in which `i` and `j` differ. -/
def hamming4 (i j : ℕ) : ℕ :=
  ((List.range 4).filter (fun k => i.testBit k != j.testBit k)).length

/-- The number of edges that have `v` as an endpoint. -/
def degree (v : ℕ) : ℕ := edges.countP (fun e => e.1 == v || e.2 == v)

/-- The coordinate selected by a bit: `+0.5` when set, `-0.5` otherwise. -/
def signCoord (b : Bool) : ℚ := if b then 0.5 else -0.5

/-- The point of the nested iteration `x` outer, `y`, `z`, `w` inner for index `i`. -/
def nestedPoint (i : ℕ) : List ℚ :=
  [signCoord (i.testBit 3), signCoord (i.testBit 2), signCoord (i.testBit 1),
    signCoord (i.testBit 0)]

/-! ## GL object lifetimes in `main` (main.cpp, lines 274-289; shader.cpp, lines 46-106)

The GL calls that create or delete object names are modelled on an explicit state: the
list of live names and a log of acquire and release events. Calls that neither create
nor delete a name (buffer uploads, attribute set-up, uniforms, drawing, buffer swaps)
leave this state unchanged and are omitted; `glBindVertexArray` is kept as the one piece
of binding state the program touches in all three phases. -/

/-- The kinds of GL object names created by the program. -/
inductive Kind
  | vertexArray
  | buffer
  | shader
  | program
deriving DecidableEq

/-- A GL object name together with its kind. -/
structure Handle where
  kind : Kind
  name : ℕ
deriving DecidableEq

/-- An acquire or release event on a handle. -/
inductive Event
  | acquire (h : Handle)
  | release (h : Handle)
deriving DecidableEq

/-- The part of the GL state that concerns object lifetimes. -/
structure GLState where
  live : List Handle
  next : ℕ
  boundVertexArray : ℕ
  trace : List Event
deriving DecidableEq

/-- The state of a fresh context: no object, name 0 reserved. -/
def GLState.fresh : GLState := ⟨[], 1, 0, []⟩

/-- Creation of one object of kind `k` (`glGen*(1, &x)`, `glCreate*()`): an unused name is
returned, becomes live, and the acquisition is logged. -/
def GLState.create (k : Kind) (s : GLState) : ℕ × GLState :=
  (s.next,
    { s with
      live := s.live ++ [⟨k, s.next⟩]
      next := s.next + 1
      trace := s.trace ++ [Event.acquire ⟨k, s.next⟩] })

/-- Deletion of the object `n` of kind `k` (`glDelete*(1, &x)`, `glDelete*(x)`): the name
stops being live and the release is logged. -/
def GLState.delete (k : Kind) (n : ℕ) (s : GLState) : GLState :=
  { s with
    live := s.live.erase ⟨k, n⟩
    trace := s.trace ++ [Event.release ⟨k, n⟩] }

/-- The call `glBindVertexArray(n)`. -/
def glBindVertexArray (n : ℕ) (s : GLState) : GLState := { s with boundVertexArray := n }

/-- How often `h` was acquired according to the log. -/
def GLState.acquired (s : GLState) (h : Handle) : ℕ := s.trace.count (Event.acquire h)

/-- How often `h` was released according to the log. -/
def GLState.released (s : GLState) (h : Handle) : ℕ := s.trace.count (Event.release h)

/-- What the environment decides during a run: whether each fallible start-up step
succeeds, and how many frames are drawn before `glfwWindowShouldClose` becomes true. -/
structure Env where
  windowCreated : Bool
  gladLoaded : Bool
  vertexFileRead : Bool
  fragmentFileRead : Bool
  vertexCompiled : Bool
  fragmentCompiled : Bool
  programLinked : Bool
  frames : ℕ

/-- The normal path: every start-up step succeeds. -/
def Env.normal (env : Env) : Bool :=
  env.windowCreated && env.gladLoaded && env.vertexFileRead && env.fragmentFileRead
    && env.vertexCompiled && env.fragmentCompiled && env.programLinked

/-- The function `initAll`: `exit(-1)` when the window cannot be created or GLAD cannot be
loaded; no GL object is created. -/
def initAll (env : Env) (s : GLState) : Except ℤ GLState :=
  if !env.windowCreated then Except.error (-1)
  else if !env.gladLoaded then Except.error (-1)
  else Except.ok s

/-- The local variables of `main` that hold GL names. -/
structure Locals where
  vao : ℕ
  vbo : ℕ
  ebo : ℕ
  shaderProg : ℕ
deriving DecidableEq

/-- The function `setupVertexObjects`: returns the names written to `vao`, `vbo`, `ebo`. -/
def setupVertexObjects (s : GLState) : (ℕ × ℕ × ℕ) × GLState :=
  let (vao, s) := GLState.create Kind.vertexArray s
  let s := glBindVertexArray vao s
  let (vbo, s) := GLState.create Kind.buffer s
  let (ebo, s) := GLState.create Kind.buffer s
  let s := glBindVertexArray 0 s
  ((vao, vbo, ebo), s)

/-- The function `compileShader`: creates a shader object, `exit(-1)` when compilation
fails. -/
def compileShader (compiled : Bool) (s : GLState) : Except ℤ (ℕ × GLState) :=
  let (shaderId, s) := GLState.create Kind.shader s
  if !compiled then Except.error (-1) else Except.ok (shaderId, s)

/-- The function `linkShaderProgram`: creates a program object, `exit(-1)` when linking
fails. -/
def linkShaderProgram (linked : Bool) (s : GLState) : Except ℤ (ℕ × GLState) :=
  let (shaderProgram, s) := GLState.create Kind.program s
  if !linked then Except.error (-1) else Except.ok (shaderProgram, s)

/-- The constructor `Shader::Shader`: reads both files (`exit(-1)` on failure), compiles
both shaders, links the program, deletes the two shader objects; returns `id_`. -/
def Shader.new (env : Env) (s : GLState) : Except ℤ (ℕ × GLState) :=
  if !env.vertexFileRead then Except.error (-1)
  else if !env.fragmentFileRead then Except.error (-1)
  else
    match compileShader env.vertexCompiled s with
    | Except.error e => Except.error e
    | Except.ok (vertexShader, s) =>
      match compileShader env.fragmentCompiled s with
      | Except.error e => Except.error e
      | Except.ok (fragmentShader, s) =>
        match linkShaderProgram env.programLinked s with
        | Except.error e => Except.error e
        | Except.ok (id, s) =>
          let s := GLState.delete Kind.shader vertexShader s
          let s := GLState.delete Kind.shader fragmentShader s
          Except.ok (id, s)

/-- The body of the `while` loop of `renderLoop`, run for the given number of frames. -/
def renderFrames (vao : ℕ) : ℕ → GLState → GLState
  | 0, s => s
  | n + 1, s => renderFrames vao n (glBindVertexArray vao s)

/-- The function `renderLoop`: the frames, then `glBindVertexArray(0)`. -/
def renderLoop (env : Env) (vao : ℕ) (s : GLState) : GLState :=
  glBindVertexArray 0 (renderFrames vao env.frames s)

/-- What a run of `main` that returns leaves behind: the return value, the GL names held
in its local variables, and the GL state. -/
structure Outcome where
  exitCode : ℤ
  locals : Locals
  gl : GLState
deriving DecidableEq

/-- The function `main`. An `Except.error c` result is a call of `exit(c)`. -/
def main (env : Env) : Except ℤ Outcome :=
  match initAll env GLState.fresh with
  | Except.error e => Except.error e
  | Except.ok s =>
    let ((vao, vbo, ebo), s) := setupVertexObjects s
    match Shader.new env s with
    | Except.error e => Except.error e
    | Except.ok (shaderProg, s) =>
      let s := renderLoop env vao s
      let s := GLState.delete Kind.vertexArray vao s
      let s := GLState.delete Kind.buffer vbo s
      Except.ok ⟨0, ⟨vao, vbo, ebo, shaderProg⟩, s⟩

/-- The environment in which every start-up step succeeds and `frames` frames are drawn. -/
def normalEnv (frames : ℕ) : Env := ⟨true, true, true, true, true, true, true, frames⟩

/-- The outcome of every run of `main` on the normal path. -/
def normalOutcome : Outcome :=
  { exitCode := 0
    locals := ⟨1, 2, 3, 6⟩
    gl :=
      { live := [⟨Kind.buffer, 3⟩, ⟨Kind.program, 6⟩]
        next := 7
        boundVertexArray := 0
        trace :=
          [Event.acquire ⟨Kind.vertexArray, 1⟩, Event.acquire ⟨Kind.buffer, 2⟩,
            Event.acquire ⟨Kind.buffer, 3⟩, Event.acquire ⟨Kind.shader, 4⟩,
            Event.acquire ⟨Kind.shader, 5⟩, Event.acquire ⟨Kind.program, 6⟩,
            Event.release ⟨Kind.shader, 4⟩, Event.release ⟨Kind.shader, 5⟩,
            Event.release ⟨Kind.vertexArray, 1⟩, Event.release ⟨Kind.buffer, 2⟩] } }

/-! ## Theorems about `projection_matrix` -/

/-- The matrix returned by `projection_matrix`, column by column. -/
theorem projection_matrix_fst {K : Type} [Field K] (tan : K → K) (fovy a n f : K) :
    (projection_matrix tan fovy a n f).1 =
      ![![1 / (a * tan (fovy / 2)), 0, 0, 0],
        ![0, 1 / tan (fovy / 2), 0, 0],
        ![0, 0, -(f + n) / (f - n), -1],
        ![1, 1, 1, 1]] := by
  funext c r
  fin_cases c <;> fin_cases r <;> simp [projection_matrix, setEntry, mat4Scalar]

/-- The constant returned by `projection_matrix` through `constFactor`. -/
theorem projection_matrix_snd {K : Type} [Field K] (tan : K → K) (fovy a n f : K) :
    (projection_matrix tan fovy a n f).2 = -(2 * f * n) / (f - n) := rfl

/-- The value `tan(π/4) = 1` in the form in which `projection_matrix` computes it
for `fovy = π/2`. -/
theorem tan_half_of_pi_div_two : Real.tan (Real.pi / 2 / 2) = 1 := by
  have h : Real.pi / 2 / 2 = Real.pi / 4 := by ring
  rw [h, Real.tan_pi_div_four]

/-- The frustum `fovy = π/2`, `xy_aspect = 1`, `zNear = 1/10`, `zFar = 100` is valid. -/
theorem validFrustum_known : ValidFrustum (Real.pi / 2) 1 (1 / 10) 100 := by
  refine ⟨by norm_num, by norm_num, ?_, ?_, by norm_num⟩
  · exact div_pos Real.pi_pos (by norm_num)
  · exact div_two_lt_of_pos Real.pi_pos

/-- C1 (amended): for all real `fovy`, `xy_aspect`, `zNear`, `zFar`, with
`t = tan(fovy/2)`, the matrix returned by `projection_matrix` has
`M[0][0] = 1/(xy_aspect*t)`, `M[1][1] = 1/t`, `M[2][2] = -(zFar+zNear)/(zFar-zNear)`,
`M[2][3] = -1`, `M[3][0] = M[3][1] = M[3][2] = M[3][3] = 1` and the eight other entries
zero (the matrix is given column by column), `constFactor` is
`-(2*zFar*zNear)/(zFar-zNear)`, and
`M*(x,y,z,w) = (x/(xy_aspect*t) + w, y/t + w, -(zFar+zNear)/(zFar-zNear)*z + w, -z + w)`. -/
theorem projection_matrix_contract (fovy xy_aspect zNear zFar : ℝ) :
    (projection_matrix Real.tan fovy xy_aspect zNear zFar).1 =
        ![![1 / (xy_aspect * Real.tan (fovy / 2)), 0, 0, 0],
          ![0, 1 / Real.tan (fovy / 2), 0, 0],
          ![0, 0, -(zFar + zNear) / (zFar - zNear), -1],
          ![1, 1, 1, 1]]
      ∧ (projection_matrix Real.tan fovy xy_aspect zNear zFar).2 =
          -(2 * zFar * zNear) / (zFar - zNear)
      ∧ ∀ x y z w : ℝ,
          mulVec (projection_matrix Real.tan fovy xy_aspect zNear zFar).1 ![x, y, z, w] =
            ![x / (xy_aspect * Real.tan (fovy / 2)) + w,
              y / Real.tan (fovy / 2) + w,
              -(zFar + zNear) / (zFar - zNear) * z + w,
              -z + w] := by
  refine ⟨projection_matrix_fst _ _ _ _ _, rfl, ?_⟩
  intro x y z w
  funext r
  rw [projection_matrix_fst]
  fin_cases r <;> simp [mulVec] <;> ring

/-- C1 (counterexample): for `fovy = π/2`, `xy_aspect = 1`, `zNear = 1/10`, `zFar = 100`
the returned matrix does not have eleven zero entries: no set of eleven index pairs
consists of zero entries only (exactly eight entries are zero). -/
theorem projection_matrix_not_eleven_zeros :
    ¬ ∃ S : Finset (Fin 4 × Fin 4), S.card = 11 ∧
        ∀ p ∈ S, (projection_matrix Real.tan (Real.pi / 2) 1 (1 / 10) 100).1 p.1 p.2 = 0 := by
  rintro ⟨S, hcard, hzero⟩
  have hsub : S ⊆ ({(0, 1), (0, 2), (0, 3), (1, 0), (1, 2), (1, 3), (2, 0), (2, 1)} :
      Finset (Fin 4 × Fin 4)) := by
    intro p hp
    have h0 := hzero p hp
    rw [projection_matrix_fst, tan_half_of_pi_div_two] at h0
    obtain ⟨c, r⟩ := p
    fin_cases c <;> fin_cases r <;> first | decide | (exfalso; norm_num at h0)
  have hle := Finset.card_le_card hsub
  rw [hcard] at hle
  exact absurd hle (by decide)

/-- C7: in exact real arithmetic, `projection_matrix(π/2, 1, 1/10, 100)` has
`M[0][0] = M[1][1] = 1`, `M[2][2] = -(100.1)/(99.9) = -1001/999`, `M[2][3] = -1` and
`constFactor = -(2*100*0.1)/99.9 = -200/999`. -/
theorem projection_matrix_known_value :
    (projection_matrix Real.tan (Real.pi / 2) 1 (1 / 10) 100).1 0 0 = 1
      ∧ (projection_matrix Real.tan (Real.pi / 2) 1 (1 / 10) 100).1 1 1 = 1
      ∧ (projection_matrix Real.tan (Real.pi / 2) 1 (1 / 10) 100).1 2 2 = -(100.1) / 99.9
      ∧ (projection_matrix Real.tan (Real.pi / 2) 1 (1 / 10) 100).1 2 2 = -1001 / 999
      ∧ (projection_matrix Real.tan (Real.pi / 2) 1 (1 / 10) 100).1 2 3 = -1
      ∧ (projection_matrix Real.tan (Real.pi / 2) 1 (1 / 10) 100).2 = -(2 * 100 * 0.1) / 99.9
      ∧ (projection_matrix Real.tan (Real.pi / 2) 1 (1 / 10) 100).2 = -200 / 999 := by
  rw [projection_matrix_fst, projection_matrix_snd, tan_half_of_pi_div_two]
  refine ⟨?_, ?_, ?_, ?_, ?_, ?_, ?_⟩ <;> norm_num

/-- C8: in exact real arithmetic, the full transform (identity model matrix, projection for
`fovy = π/2`, `xy_aspect = 1`, `zNear = 1/10`, `zFar = 100`, then `z += constFactor`)
sends the hypercube vertex `(0.5, 0.5, 0.5, 0.5)` to the clip-space vector
`(1, 1, -67/333, 0)`, where `-67/333 = 0.5*(-1001/999) + 0.5 - 200/999`. -/
theorem full_transform_golden_value :
    programTransform Real.tan (Real.pi / 2) 1 (1 / 10) 100 ![0.5, 0.5, 0.5, 0.5] =
        ![1, 1, -67 / 333, 0]
      ∧ (-67 / 333 : ℝ) = 0.5 * (-1001 / 999) + 0.5 - 200 / 999 := by
  refine ⟨?_, by norm_num⟩
  funext r
  unfold programTransform fullTransform
  rw [projection_matrix_fst, projection_matrix_snd, tan_half_of_pi_div_two]
  fin_cases r <;> simp [mulVec, mulMat, modelMatrix, mat4Scalar] <;> norm_num

/-- The full transform in closed form. -/
theorem programTransform_apply {K : Type} [Field K] (tan : K → K) (fovy a n f x y z w : K) :
    programTransform tan fovy a n f ![x, y, z, w] =
      ![x / (a * tan (fovy / 2)) + w,
        y / tan (fovy / 2) + w,
        -(f + n) / (f - n) * z + w + -(2 * f * n) / (f - n),
        -z + w] := by
  funext r
  unfold programTransform fullTransform
  rw [projection_matrix_fst, projection_matrix_snd]
  fin_cases r <;> simp [mulVec, mulMat, modelMatrix, mat4Scalar] <;> ring

/-- The standard perspective matrix applied to a point, in closed form. -/
theorem standardPerspective_mulVec {K : Type} [Field K] (tan : K → K)
    (fovy a n f x y z w : K) :
    mulVec (standardPerspective tan fovy a n f) ![x, y, z, w] =
      ![x / (a * tan (fovy / 2)),
        y / tan (fovy / 2),
        -(f + n) / (f - n) * z + -(2 * f * n) / (f - n) * w,
        -z] := by
  funext r
  unfold standardPerspective
  fin_cases r <;> simp [mulVec, Matrix.vecHead, Matrix.vecTail] <;> ring

/-- C4 (counterexample): for the valid frustum `fovy = π/2`, `aspect = 1`, `near = 1/10`,
`far = 100`, the full transform of the point `(0, 0, 0, 1)` is not the clip vector that
the standard perspective matrix gives for `(0, 0, 0, 1)`. -/
theorem full_transform_ne_standard :
    ValidFrustum (Real.pi / 2) 1 (1 / 10) 100
      ∧ programTransform Real.tan (Real.pi / 2) 1 (1 / 10) 100 ![0, 0, 0, 1] ≠
          mulVec (standardPerspective Real.tan (Real.pi / 2) 1 (1 / 10) 100) ![0, 0, 0, 1] := by
  refine ⟨validFrustum_known, fun h => ?_⟩
  have h3 := congrFun h 3
  rw [programTransform_apply, standardPerspective_mulVec] at h3
  norm_num at h3

/-- C4 (amended): for every valid frustum and all real `x`, `y`, `z`, `w`, the full
transform (multiply by the matrix of `projection_matrix`, then add `constFactor` to `z`)
of `(x, y, z, w)` is the clip vector that the standard perspective matrix gives for
`(x, y, z, 1)` with `w` added to every component; so at `w = 1` the two differ by
`(1, 1, 1, 1)` and they agree at `w = 0`. -/
theorem full_transform_eq_standard_add (fovy aspect near far : ℝ)
    (_h : ValidFrustum fovy aspect near far) (x y z w : ℝ) :
    programTransform Real.tan fovy aspect near far ![x, y, z, w] =
      fun r => mulVec (standardPerspective Real.tan fovy aspect near far) ![x, y, z, 1] r + w := by
  funext r
  rw [programTransform_apply, standardPerspective_mulVec]
  fin_cases r <;> simp
  ring

/-- Witness for C4 (amended) at `fovy = π/2`, `aspect = 1`, `near = 1/10`, `far = 100` and
the point `(0, 0, 0, 1)`. -/
theorem full_transform_eq_standard_add_witness :
    ValidFrustum (Real.pi / 2) 1 (1 / 10) 100
      ∧ programTransform Real.tan (Real.pi / 2) 1 (1 / 10) 100 ![0, 0, 0, 1] =
          fun r => mulVec (standardPerspective Real.tan (Real.pi / 2) 1 (1 / 10) 100)
            ![0, 0, 0, 1] r + 1 :=
  ⟨validFrustum_known, full_transform_eq_standard_add _ _ _ _ validFrustum_known 0 0 0 1⟩

/-- The two coordinate values are different. -/
theorem signCoord_injective (a b : Bool) (h : signCoord a = signCoord b) : a = b := by
  cases a <;> cases b <;> first | rfl | (exfalso; norm_num [signCoord] at h)

/-- Every position of the table is the nested-iteration point of its index. -/
theorem position_eq_nestedPoint (i : ℕ) (hi : i < 16) : position i = nestedPoint i := by
  interval_cases i <;> rfl

/-- An index below 16 is determined by its four low bits. -/
theorem eq_of_testBit_eq :
    ∀ i < 16, ∀ j < 16,
      (i.testBit 3 = j.testBit 3 ∧ i.testBit 2 = j.testBit 2 ∧
        i.testBit 1 = j.testBit 1 ∧ i.testBit 0 = j.testBit 0) → i = j := by
  decide

/-- Every choice of four bits is the bit pattern of an index below 16. -/
theorem exists_index_of_bits :
    ∀ b3 b2 b1 b0 : Bool, ∃ i, i < 16 ∧
      i.testBit 3 = b3 ∧ i.testBit 2 = b2 ∧ i.testBit 1 = b1 ∧ i.testBit 0 = b0 := by
  decide

/-- The colour of record `i` is red when bit 1 of `i` is set and green otherwise. -/
theorem color_eq (i : ℕ) (hi : i < 16) :
    color i = if i.testBit 1 then [1, 0, 0] else [0, 1, 0] := by
  interval_cases i <;> norm_num [color, attrib, vertices, stride, Nat.testBit, Nat.shiftRight_eq_div_pow]

/-- The third coordinate of record `i` is `+0.5` when bit 1 of `i` is set and `-0.5`
otherwise. -/
theorem position_third (i : ℕ) (hi : i < 16) :
    (position i).getD 2 0 = signCoord (i.testBit 1) := by
  rw [position_eq_nestedPoint i hi]
  rfl

/-- C3: the vertex table has exactly 16 records of 7 floats; the position of record `i`
is the nested-iteration point of `i` (`x = +0.5` iff bit 3 is set, `y` iff bit 2, `z` iff
bit 1, `w` iff bit 0, and `-0.5` otherwise); the 16 positions are pairwise distinct and
are exactly all sign combinations of `(±0.5, ±0.5, ±0.5, ±0.5)`. -/
theorem vertices_nested_iteration :
    vertices.length = 16 * 7
      ∧ vertexCount = 16
      ∧ (∀ i, i < 16 → (attrib 0 stride i).length = 7)
      ∧ (∀ i, i < 16 → position i =
          [if i.testBit 3 then 0.5 else -0.5, if i.testBit 2 then 0.5 else -0.5,
            if i.testBit 1 then 0.5 else -0.5, if i.testBit 0 then 0.5 else -0.5])
      ∧ (∀ i, i < 16 → ∀ j, j < 16 → position i = position j → i = j)
      ∧ (∀ p : List ℚ, (∃ i, i < 16 ∧ position i = p) ↔
          ∃ x ∈ [-0.5, 0.5], ∃ y ∈ [-0.5, 0.5], ∃ z ∈ [-0.5, 0.5], ∃ w ∈ [(-0.5 : ℚ), 0.5],
            p = [x, y, z, w]) := by
  refine ⟨by decide, by decide, ?_, ?_, ?_, ?_⟩
  · intro i hi
    interval_cases i <;> decide
  · intro i hi
    exact position_eq_nestedPoint i hi
  · intro i hi j hj h
    rw [position_eq_nestedPoint i hi, position_eq_nestedPoint j hj] at h
    simp only [nestedPoint, List.cons.injEq, and_true] at h
    exact eq_of_testBit_eq i hi j hj
      ⟨signCoord_injective _ _ h.1, signCoord_injective _ _ h.2.1,
        signCoord_injective _ _ h.2.2.1, signCoord_injective _ _ h.2.2.2⟩
  · intro p
    have hmem : ∀ q : ℚ, q ∈ [(-0.5 : ℚ), 0.5] ↔ ∃ b : Bool, q = signCoord b := by
      intro q
      constructor
      · intro hq
        simp only [List.mem_cons, List.mem_singleton, List.mem_nil_iff, or_false] at hq
        rcases hq with rfl | rfl
        · exact ⟨false, rfl⟩
        · exact ⟨true, rfl⟩
      · rintro ⟨b, rfl⟩
        cases b <;> simp [signCoord]
    constructor
    · rintro ⟨i, hi, rfl⟩
      rw [position_eq_nestedPoint i hi]
      exact ⟨_, (hmem _).2 ⟨_, rfl⟩, _, (hmem _).2 ⟨_, rfl⟩, _, (hmem _).2 ⟨_, rfl⟩,
        _, (hmem _).2 ⟨_, rfl⟩, rfl⟩
    · rintro ⟨x, hx, y, hy, z, hz, w, hw, rfl⟩
      obtain ⟨b3, rfl⟩ := (hmem x).1 hx
      obtain ⟨b2, rfl⟩ := (hmem y).1 hy
      obtain ⟨b1, rfl⟩ := (hmem z).1 hz
      obtain ⟨b0, rfl⟩ := (hmem w).1 hw
      obtain ⟨i, hi, h3, h2, h1, h0⟩ := exists_index_of_bits b3 b2 b1 b0
      refine ⟨i, hi, ?_⟩
      rw [position_eq_nestedPoint i hi, nestedPoint, h3, h2, h1, h0]

/-- C5: for every record `i` of the vertex table the third position coordinate is `-0.5`
iff the colour is `(0,1,0)` and is `+0.5` iff the colour is `(1,0,0)`; every record has
one of the two colours, and each colour class has exactly 8 vertices. -/
theorem color_by_third_coordinate :
    (∀ i, i < 16 → ((position i).getD 2 0 = -0.5 ↔ color i = [0, 1, 0]))
      ∧ (∀ i, i < 16 → ((position i).getD 2 0 = 0.5 ↔ color i = [1, 0, 0]))
      ∧ (∀ i, i < 16 → (color i = [0, 1, 0] ∨ color i = [1, 0, 0]))
      ∧ ((Finset.range 16).filter (fun i => color i = [0, 1, 0])).card = 8
      ∧ ((Finset.range 16).filter (fun i => color i = [1, 0, 0])).card = 8 := by
  have hg : ∀ i, i < 16 → (color i = [0, 1, 0] ↔ i.testBit 1 = false) := by
    intro i hi
    rw [color_eq i hi]
    cases i.testBit 1 <;> simp
  have hr : ∀ i, i < 16 → (color i = [1, 0, 0] ↔ i.testBit 1 = true) := by
    intro i hi
    rw [color_eq i hi]
    cases i.testBit 1 <;> simp
  refine ⟨?_, ?_, ?_, ?_, ?_⟩
  · intro i hi
    rw [position_third i hi, hg i hi]
    cases i.testBit 1 <;> norm_num [signCoord]
  · intro i hi
    rw [position_third i hi, hr i hi]
    cases i.testBit 1 <;> norm_num [signCoord]
  · intro i hi
    rw [hg i hi, hr i hi]
    cases i.testBit 1 <;> simp
  · rw [Finset.filter_congr (fun i hi => hg i (Finset.mem_range.1 hi))]
    decide
  · rw [Finset.filter_congr (fun i hi => hr i (Finset.mem_range.1 hi))]
    decide

/-- C2: in the index table read as 32 consecutive pairs, for all `i`, `j` below 16 the
unordered pair of `i` and `j` occurs exactly once when the 4-bit representations of `i`
and `j` differ in exactly one bit and does not occur otherwise; so there are exactly 32
edges, no self-loop and no duplicate unordered pair. -/
theorem indices_hypercube_edges :
    indices.length = 64
      ∧ edges.length = 32
      ∧ (∀ e ∈ edges, e.1 < 16 ∧ e.2 < 16)
      ∧ (∀ i, i < 16 → ∀ j, j < 16 →
          occurrences i j = if hamming4 i j = 1 then 1 else 0)
      ∧ (∀ e ∈ edges, e.1 ≠ e.2)
      ∧ edges.Pairwise (fun e1 e2 => joins e1 e2.1 e2.2 = false) := by
  refine ⟨by decide, by decide, by decide, by decide, by decide, by decide⟩

/-- C6: every vertex index below 16 occurs in exactly 4 of the 32 index pairs, and the 64
index entries contain each of the 16 indices exactly 4 times. -/
theorem indices_degree_four :
    edges.length = 32
      ∧ indices.length = 64
      ∧ (∀ v, v < 16 → degree v = 4)
      ∧ (∀ v, v < 16 → indices.count v = 4)
      ∧ (∀ v ∈ indices, v < 16) := by
  refine ⟨by decide, by decide, by decide, by decide, by decide⟩

/-! ## Theorems about GL object lifetimes -/

/-- The frames of the render loop create and delete nothing: only the vertex-array
binding may change. -/
theorem renderFrames_eq (vao n : ℕ) (s : GLState) :
    renderFrames vao n s = s ∨ renderFrames vao n s = glBindVertexArray vao s := by
  induction n generalizing s with
  | zero => exact Or.inl rfl
  | succ k ih =>
    rcases ih (glBindVertexArray vao s) with h | h
    · exact Or.inr h
    · exact Or.inr h

/-- The function `renderLoop` returns, for any number of frames, with the state it was
given and no vertex array bound. -/
theorem renderLoop_eq (env : Env) (vao : ℕ) (s : GLState) :
    renderLoop env vao s = glBindVertexArray 0 s := by
  unfold renderLoop
  rcases renderFrames_eq vao env.frames s with h | h
  · rw [h]
  · rw [h]
    rfl

/-- On the normal path `main` returns, after any number of frames, with `normalOutcome`. -/
theorem main_normal (env : Env) (h : env.normal = true) : main env = Except.ok normalOutcome := by
  obtain ⟨b1, b2, b3, b4, b5, b6, b7, frames⟩ := env
  simp only [Env.normal, Bool.and_eq_true] at h
  obtain ⟨⟨⟨⟨⟨⟨rfl, rfl⟩, rfl⟩, rfl⟩, rfl⟩, rfl⟩, rfl⟩ := h
  simp only [main, initAll, setupVertexObjects, Shader.new, compileShader, linkShaderProgram,
    renderLoop_eq]
  rfl

/-- C9 (counterexample): on the normal path with one frame drawn, `main` returns 0 while
the element buffer `ebo` and the shader program are still live and were never released. -/
theorem main_leaves_live_handles :
    ∃ o, main (normalEnv 1) = Except.ok o ∧ o.exitCode = 0
      ∧ o.gl.live = [⟨Kind.buffer, o.locals.ebo⟩, ⟨Kind.program, o.locals.shaderProg⟩]
      ∧ o.gl.live ≠ []
      ∧ o.gl.released ⟨Kind.buffer, o.locals.ebo⟩ = 0
      ∧ o.gl.released ⟨Kind.program, o.locals.shaderProg⟩ = 0 :=
  ⟨normalOutcome, rfl, by decide, by decide, by decide, by decide, by decide⟩

/-- C9 (amended): on the normal exit path (every start-up step succeeds, the render loop
ends after any number of frames), `main` returns 0; the vertex array `vao` and the vertex
buffer `vbo` were each acquired once, released exactly once and are not live at exit; the
shader program was acquired once, is never released, and is still live at exit. -/
theorem main_releases_vao_vbo (env : Env) (h : env.normal = true) :
    ∃ o, main env = Except.ok o ∧ o.exitCode = 0
      ∧ o.gl.acquired ⟨Kind.vertexArray, o.locals.vao⟩ = 1
      ∧ o.gl.released ⟨Kind.vertexArray, o.locals.vao⟩ = 1
      ∧ ⟨Kind.vertexArray, o.locals.vao⟩ ∉ o.gl.live
      ∧ o.gl.acquired ⟨Kind.buffer, o.locals.vbo⟩ = 1
      ∧ o.gl.released ⟨Kind.buffer, o.locals.vbo⟩ = 1
      ∧ ⟨Kind.buffer, o.locals.vbo⟩ ∉ o.gl.live
      ∧ o.gl.acquired ⟨Kind.program, o.locals.shaderProg⟩ = 1
      ∧ o.gl.released ⟨Kind.program, o.locals.shaderProg⟩ = 0
      ∧ ⟨Kind.program, o.locals.shaderProg⟩ ∈ o.gl.live :=
  ⟨normalOutcome, main_normal env h, by decide, by decide, by decide, by decide, by decide,
    by decide, by decide, by decide, by decide, by decide⟩

/-- Witness for C9 (amended): the normal path with two frames drawn. -/
theorem main_releases_vao_vbo_witness :
    (normalEnv 2).normal = true
      ∧ ∃ o, main (normalEnv 2) = Except.ok o ∧ o.exitCode = 0
        ∧ o.gl.acquired ⟨Kind.vertexArray, o.locals.vao⟩ = 1
        ∧ o.gl.released ⟨Kind.vertexArray, o.locals.vao⟩ = 1
        ∧ ⟨Kind.vertexArray, o.locals.vao⟩ ∉ o.gl.live
        ∧ o.gl.acquired ⟨Kind.buffer, o.locals.vbo⟩ = 1
        ∧ o.gl.released ⟨Kind.buffer, o.locals.vbo⟩ = 1
        ∧ ⟨Kind.buffer, o.locals.vbo⟩ ∉ o.gl.live
        ∧ o.gl.acquired ⟨Kind.program, o.locals.shaderProg⟩ = 1
        ∧ o.gl.released ⟨Kind.program, o.locals.shaderProg⟩ = 0
        ∧ ⟨Kind.program, o.locals.shaderProg⟩ ∈ o.gl.live :=
  ⟨by decide, main_releases_vao_vbo (normalEnv 2) (by decide)⟩

end Tesseract
